import Mathlib

/-!
Verification of the xendit-api webhook ingestion and idempotent
event-processing pipeline.

Shallow embedding of:
 - `src/shared/services/firestoreService.js` (status mapper, booking update,
   payment audit log),
 - `src/features/webhooks/service.js` (event dispatcher and handlers,
   in-memory webhook store, processed-identifier set),
 - `src/features/webhooks` routes (webhook authenticator, POST pipeline,
   admin GET endpoints),
 - `src/shared/middleware/idempotency.js` (client-key idempotency ledger),
 - `src/shared/validation/schemas.js` (the webhook schema, restricted to the
   fields the pipeline reads).

JavaScript values that may be `undefined`, `null` or present are modelled by
`JsVal`; JS truthiness on strings ("" is falsy) is modelled explicitly.
External-store failure modes (Firestore unavailable, a write throwing) are
modelled by flags on the store state.  Ghost call counters (`updateCalls`,
`auditCalls`, `dispatchCount`) instrument how often the booking-update
service, audit-log service and the event dispatch switch are entered; they
mirror the call counts a test double would observe and affect no behaviour.
-/

deriving instance DecidableEq for Except

namespace XenditApi

/-- A JavaScript field value: `undefined`, `null`, or a present value. -/
inductive JsVal (α : Type) where
  | undefined : JsVal α
  | nul : JsVal α
  | val : α → JsVal α
deriving DecidableEq, Repr

namespace JsVal

/-- JS truthiness of a string-valued field: only a non-empty string is truthy. -/
def truthyStr : JsVal String → Bool
  | .val s => s ≠ ""
  | _ => false

/-- JS string coercion as used for object-property keys and document ids:
`undefined` prints as "undefined", `null` as "null". -/
def toKey : JsVal String → String
  | .undefined => "undefined"
  | .nul => "null"
  | .val s => s

end JsVal

/-- JS `a || b` over an optional header value: the header is used when it is a
non-empty string, otherwise the fallback. -/
def jsOrStr (h : Option String) (fallback : String) : String :=
  match h with
  | some s => if s = "" then fallback else s
  | none => fallback

/-- JS truthiness of an optional string (an env var or header): present and
non-empty. -/
def optTruthy : Option String → Bool
  | some s => s ≠ ""
  | none => false

/-- JS `String.prototype.trim`: strip leading and trailing whitespace
(structurally recursive so that concrete instances evaluate). -/
def jsTrim (s : String) : String :=
  String.mk
    (((s.data.dropWhile Char.isWhitespace).reverse.dropWhile
        Char.isWhitespace).reverse)

/-- Association-list get (models `Map.get` / Firestore document lookup):
first binding for the key, if any. -/
def assocGet {α : Type} (l : List (String × α)) (k : String) : Option α :=
  match l with
  | [] => none
  | (k', v) :: rest => if k' = k then some v else assocGet rest k

/-- Association-list set (models `Map.set`: overwrite if present, insert
otherwise). -/
def assocSet {α : Type} (l : List (String × α)) (k : String) (v : α) :
    List (String × α) :=
  match l with
  | [] => [(k, v)]
  | (k', v') :: rest =>
      if k' = k then (k, v) :: rest else (k', v') :: assocSet rest k v

/-- Association-list delete (models `Map.delete`). -/
def assocDelete {α : Type} (l : List (String × α)) (k : String) :
    List (String × α) :=
  l.filter (fun p => p.1 ≠ k)

/-! ## Webhook payload data model

The `data` object of an inbound webhook, restricted to the fields the
pipeline reads (`schemas.js` additionally tolerates unknown fields, which no
code path consumes). -/

/-- The `data` object of an inbound webhook. -/
structure WebhookPayload where
  payment_id : JsVal String := .undefined
  /-- Generic `id` field (capture id for `capture.succeeded` events). -/
  id : JsVal String := .undefined
  payment_request_id : JsVal String := .undefined
  reference_id : JsVal String := .undefined
  status : JsVal String := .undefined
  amount : JsVal Int := .undefined
  currency : JsVal String := .undefined
  channel_code : JsVal String := .undefined
  failure_code : JsVal String := .undefined
  authorized_amount : JsVal Int := .undefined
  captured_amount : JsVal Int := .undefined
deriving DecidableEq, Repr

/-- An inbound webhook body `{ event, business_id, created, data }`. -/
structure WebhookBody where
  event : String
  business_id : String
  created : String
  data : WebhookPayload
deriving DecidableEq, Repr

/-- The `event` tags accepted by `webhookSchema`. -/
def allowedEvents : List String :=
  ["payment.capture", "payment.authorization", "payment.failure",
   "payment.failed", "payment.succeeded", "capture.succeeded",
   "payment_request.expiry", "payment_request.succeeded",
   "payment_request.failed"]

/-- A `Joi.string().required()` field: present and non-empty (Joi rejects
`undefined`, `null` and `''` for a plain required string). -/
def joiRequiredStr : JsVal String → Bool
  | .val s => s ≠ ""
  | _ => false

/-- `webhookSchema` from `schemas.js`, restricted to the checks on fields the
pipeline reads: `event` must be one of the recognized tags, `business_id` and
`created` are required strings (the ISO-8601 shape of `created` is abstracted
to non-emptiness; no claim depends on it), and inside `data` both `status`
and `reference_id` are required strings.  All remaining schema fields are
optional and always accepted for well-typed payloads. -/
def validateWebhook (b : WebhookBody) : Bool :=
  allowedEvents.contains b.event &&
  b.business_id ≠ "" &&
  b.created ≠ "" &&
  joiRequiredStr b.data.status &&
  joiRequiredStr b.data.reference_id

/-! ## Firestore model (`firestoreService.js`) -/

/-- The `transaction` sub-document of a booking.  A field holding `.undefined`
has never been written. -/
structure BookingTransaction where
  status : JsVal String := .undefined
  paymentId : JsVal String := .undefined
  referenceId : JsVal String := .undefined
  paymentRequestId : JsVal String := .undefined
  amount : JsVal Int := .undefined
  currency : JsVal String := .undefined
  channelCode : JsVal String := .undefined
  failureCode : JsVal String := .undefined
  updatedAt : JsVal Nat := .undefined
  processedAt : JsVal Nat := .undefined
deriving DecidableEq, Repr

/-- A booking document in the external store. -/
structure Booking where
  payLater : JsVal Bool := .undefined
  url : JsVal String := .undefined
  /-- Top-level booking status (the derived status field). -/
  status : JsVal String := .undefined
  transaction : BookingTransaction := {}
deriving DecidableEq, Repr

/-- One `payment_logs` document: the spread event payload plus the tags the
handlers add, plus the fields `createPaymentLog` itself adds. -/
structure PaymentLog where
  data : WebhookPayload
  event : String
  bookingId : JsVal String
  captureId : JsVal String := .undefined
  createdAt : Nat
  source : String
deriving DecidableEq, Repr

/-- State of the external Firestore collaborator.  `available` models whether
initialization succeeded (`isAvailable()`); `updateFails` / `auditFails`
model the respective write throwing once attempted.  `updateCalls` and
`auditCalls` are ghost counters of service-function entries. -/
structure FirestoreState where
  available : Bool
  updateFails : Bool := false
  auditFails : Bool := false
  bookings : List (String × Booking) := []
  paymentLogs : List PaymentLog := []
  updateCalls : Nat := 0
  auditCalls : Nat := 0
deriving DecidableEq, Repr

/-- `mapXenditStatus` from `firestoreService.js`: the fixed lookup table with
`'unknown'` for any unmapped key. -/
def mapXenditStatus (xenditStatus : String) : String :=
  if xenditStatus = "SUCCEEDED" then "completed"
  else if xenditStatus = "AUTHORIZED" then "authorized"
  else if xenditStatus = "PENDING" then "pending"
  else if xenditStatus = "FAILED" then "failed"
  else if xenditStatus = "CANCELED" then "cancelled"
  else if xenditStatus = "EXPIRED" then "expired"
  else "unknown"

/-- Result object of `updateBookingTransactionStatus`:
`{ success, bookingId, status, reason }`. -/
structure UpdateResult where
  success : Bool
  bookingId : String
  /-- The raw provider status on the failure paths, the mapped status on
  success. -/
  statusOut : JsVal String
  reason : Option String := none
deriving DecidableEq, Repr

/-- Merge one field of a partial update: JS `undefined` source values are
filtered out of `updateData` and leave the stored field unchanged; `null`
and present values are written. -/
def mergeField {α : Type} (old upd : JsVal α) : JsVal α :=
  match upd with
  | .undefined => old
  | v => v

/-- The local `url` variable: `const url = bookingData.url || ''`. -/
def bookingUrlVar (b : Booking) : String :=
  match b.url with
  | .val s => s
  | _ => ""

/-- `payLater === false || payLater === null || payLater === undefined`. -/
def isPayLaterFalseOrNull (b : Booking) : Bool :=
  b.payLater = .val false || b.payLater = .nul || b.payLater = .undefined

/-- The `bookingStatus` computation of `updateBookingTransactionStatus`:
only when the payment is successful (`status === 'SUCCEEDED' ||
mappedStatus === 'completed'`), condition 1 (pay-later false/null and empty
url) yields `'Content Pending'`, else condition 2 (mapped `pending`,
pay-later false/null, non-empty url) yields `'Processing'`. -/
def derivedBookingStatus (b : Booking) (status : JsVal String)
    (mapped : String) : Option String :=
  let url := bookingUrlVar b
  let isPaymentSuccessful :=
    status = .val "SUCCEEDED" || mapped = "completed"
  if isPaymentSuccessful then
    if isPayLaterFalseOrNull b && (url = "" || jsTrim url = "") then
      some "Content Pending"
    else if mapped = "pending" && isPayLaterFalseOrNull b &&
        url ≠ "" && jsTrim url ≠ "" then
      some "Processing"
    else none
  else none

/-- Build the updated booking document from `updateData`: the merged
`transaction` sub-fields (undefined source values omitted, the two server
timestamps always set) and the conditionally spread top-level `status`. -/
def applyBookingUpdate (b : Booking) (pd : WebhookPayload) (mapped : String)
    (bs : Option String) (now : Nat) : Booking :=
  let tr := b.transaction
  { b with
    transaction :=
      { status := .val mapped
        updatedAt := .val now
        paymentId := mergeField tr.paymentId pd.payment_id
        referenceId := mergeField tr.referenceId pd.reference_id
        paymentRequestId :=
          mergeField tr.paymentRequestId pd.payment_request_id
        amount := mergeField tr.amount pd.amount
        currency := mergeField tr.currency pd.currency
        channelCode := mergeField tr.channelCode pd.channel_code
        failureCode := mergeField tr.failureCode pd.failure_code
        processedAt := .val now }
    status := match bs with
      | some s => .val s
      | none => b.status }

/-- `updateBookingTransactionStatus` from `firestoreService.js`.

`status` is the raw provider status field of the event (`undefined`/`null`
coerce to the strings "undefined"/"null" when used as a lookup key, exactly
as JS property access does).  `now` stands for the server timestamp.  The
`get` and `update` of the wrapped `try` block are modelled with a single
failure flag `updateFails` standing for a genuine store error (which the
code wraps and rethrows).  Returns the JS result object (or the thrown
error message) together with the new store state. -/
def updateBookingTransactionStatus (fs : FirestoreState) (bookingId : String)
    (status : JsVal String) (pd : WebhookPayload) (now : Nat) :
    Except String UpdateResult × FirestoreState :=
  let fs0 := { fs with updateCalls := fs.updateCalls + 1 }
  if ¬fs.available then
    (.ok { success := false, bookingId := bookingId, statusOut := status,
           reason := some "Firestore not available" }, fs0)
  else
    match assocGet fs.bookings bookingId with
    | none =>
        (.ok { success := false, bookingId := bookingId, statusOut := status,
               reason := some "Booking not found" }, fs0)
    | some b =>
        if fs.updateFails then
          (.error "Failed to update booking", fs0)
        else
          let mappedStatus := mapXenditStatus status.toKey
          let bookingStatus := derivedBookingStatus b status mappedStatus
          (.ok { success := true, bookingId := bookingId,
                 statusOut := .val mappedStatus },
           { fs0 with
             bookings := assocSet fs0.bookings bookingId
               (applyBookingUpdate b pd mappedStatus bookingStatus now) })

/-- What each handler passes to `createPaymentLog`: the spread event payload
plus the `event` tag, the `bookingId` and (for captures) the `capture_id`. -/
structure LogInput where
  data : WebhookPayload
  event : String
  bookingId : JsVal String
  captureId : JsVal String := .undefined
deriving DecidableEq, Repr

/-- `createPaymentLog` from `firestoreService.js`: when Firestore is
unavailable the write is skipped and `null` is returned; a genuine write
failure throws; otherwise a document is appended and its auto-id returned. -/
def createPaymentLog (fs : FirestoreState) (li : LogInput) (now : Nat) :
    Except String (Option String) × FirestoreState :=
  let fs0 := { fs with auditCalls := fs.auditCalls + 1 }
  if ¬fs.available then
    (.ok none, fs0)
  else if fs.auditFails then
    (.error "Failed to create payment log", fs0)
  else
    let doc : PaymentLog :=
      { data := li.data, event := li.event, bookingId := li.bookingId,
        captureId := li.captureId, createdAt := now,
        source := "xendit_webhook" }
    (.ok (some ("log-" ++ toString fs.paymentLogs.length)),
     { fs0 with paymentLogs := fs0.paymentLogs ++ [doc] })

/-! ## Webhook service (`features/webhooks/service.js`) -/

/-- One stored webhook record (service-side `webhookStore` values). -/
structure WebhookRecord where
  id : String
  event : String
  business_id : String
  created : String
  data : WebhookPayload
  receivedAt : Nat
  processedAt : Nat
deriving DecidableEq, Repr

/-- State owned by the webhook service module: the processed-identifier set,
the service's own in-memory `webhookStore`, the external Firestore state, and
a ghost counter of how many times the dispatch switch was entered. -/
structure ServiceState where
  processedWebhooks : List String := []
  webhookStore : List (String × WebhookRecord) := []
  fs : FirestoreState
  dispatchCount : Nat := 0
deriving DecidableEq, Repr

/-- Result object of `processWebhook`. -/
structure ProcessResult where
  processed : Bool
  duplicate : Bool := false
  webhookId : String
deriving DecidableEq, Repr

/-- The fallback chain `data.payment_id || data.id || data.payment_request_id
|| data.reference_id` (JS `||`, so empty strings are skipped); when every
alternative is falsy the template literal stringifies `undefined`. -/
def bestAvailableId (pd : WebhookPayload) : String :=
  if pd.payment_id.truthyStr then pd.payment_id.toKey
  else if pd.id.truthyStr then pd.id.toKey
  else if pd.payment_request_id.truthyStr then pd.payment_request_id.toKey
  else if pd.reference_id.truthyStr then pd.reference_id.toKey
  else "undefined"

/-- The Event Identifier: `req.headers['webhook-id'] ||
`${event}-${identifier}-${created}``. -/
def webhookIdOf (hdrWebhookId : Option String) (b : WebhookBody) : String :=
  jsOrStr hdrWebhookId
    (b.event ++ "-" ++ bestAvailableId b.data ++ "-" ++ b.created)

/-- `handlePaymentCapture` (also used for `payment.succeeded`): update the
booking keyed by `reference_id` (skips are tolerated), then append the audit
log; any thrown error is rethrown.  Firestore's SDK would itself reject an
`undefined` document id, but schema validation guarantees `reference_id` is
present before any handler runs; the JS string coercion of the id is kept. -/
def handlePaymentCapture (pd : WebhookPayload) (fs : FirestoreState)
    (now : Nat) : Except String Unit × FirestoreState :=
  match updateBookingTransactionStatus fs pd.reference_id.toKey pd.status pd
      now with
  | (.error e, fs1) => (.error e, fs1)
  | (.ok _, fs1) =>
      match createPaymentLog fs1
          { data := pd, event := "payment.capture",
            bookingId := pd.reference_id } now with
      | (.error e, fs2) => (.error e, fs2)
      | (.ok _, fs2) => (.ok (), fs2)

/-- `handleCaptureSucceeded`: reshape the capture record into the payment
shape (capture id stands in for payment id, captured amount falls back to
authorized amount under JS `||`, which treats a 0 amount as falsy), update
the booking, then audit with the original capture payload. -/
def handleCaptureSucceeded (cd : WebhookPayload) (fs : FirestoreState)
    (now : Nat) : Except String Unit × FirestoreState :=
  let amount : JsVal Int :=
    match cd.captured_amount with
    | .val a => if a = 0 then cd.authorized_amount else .val a
    | _ => cd.authorized_amount
  let pd : WebhookPayload :=
    { payment_id := cd.id, reference_id := cd.reference_id,
      payment_request_id := cd.payment_request_id, status := cd.status,
      amount := amount, currency := cd.currency }
  match updateBookingTransactionStatus fs cd.reference_id.toKey cd.status pd
      now with
  | (.error e, fs1) => (.error e, fs1)
  | (.ok _, fs1) =>
      match createPaymentLog fs1
          { data := cd, event := "capture.succeeded",
            bookingId := cd.reference_id, captureId := cd.id } now with
      | (.error e, fs2) => (.error e, fs2)
      | (.ok _, fs2) => (.ok (), fs2)

/-- `handlePaymentAuthorization`: informational only, no external effect. -/
def handlePaymentAuthorization (_pd : WebhookPayload) (fs : FirestoreState)
    (_now : Nat) : Except String Unit × FirestoreState :=
  (.ok (), fs)

/-- `handlePaymentFailure` (also used for `payment.failed`): same structure
as the capture handler, audited under the `payment.failure` tag. -/
def handlePaymentFailure (pd : WebhookPayload) (fs : FirestoreState)
    (now : Nat) : Except String Unit × FirestoreState :=
  match updateBookingTransactionStatus fs pd.reference_id.toKey pd.status pd
      now with
  | (.error e, fs1) => (.error e, fs1)
  | (.ok _, fs1) =>
      match createPaymentLog fs1
          { data := pd, event := "payment.failure",
            bookingId := pd.reference_id } now with
      | (.error e, fs2) => (.error e, fs2)
      | (.ok _, fs2) => (.ok (), fs2)

/-- `handlePaymentRequestExpiry`: the booking update runs only when
`reference_id` is truthy; the audit log is always attempted. -/
def handlePaymentRequestExpiry (pd : WebhookPayload) (fs : FirestoreState)
    (now : Nat) : Except String Unit × FirestoreState :=
  let step1 : Except String Unit × FirestoreState :=
    if pd.reference_id.truthyStr then
      match updateBookingTransactionStatus fs pd.reference_id.toKey pd.status
          pd now with
      | (.error e, fs1) => (.error e, fs1)
      | (.ok _, fs1) => (.ok (), fs1)
    else (.ok (), fs)
  match step1 with
  | (.error e, fs1) => (.error e, fs1)
  | (.ok _, fs1) =>
      match createPaymentLog fs1
          { data := pd, event := "payment_request.expiry",
            bookingId := pd.reference_id } now with
      | (.error e, fs2) => (.error e, fs2)
      | (.ok _, fs2) => (.ok (), fs2)

/-- `handlePaymentRequestSucceeded`: audit-only. -/
def handlePaymentRequestSucceeded (pd : WebhookPayload) (fs : FirestoreState)
    (now : Nat) : Except String Unit × FirestoreState :=
  match createPaymentLog fs
      { data := pd, event := "payment_request.succeeded",
        bookingId := pd.reference_id } now with
  | (.error e, fs1) => (.error e, fs1)
  | (.ok _, fs1) => (.ok (), fs1)

/-- `handlePaymentRequestFailed`: like expiry — guarded update, then audit. -/
def handlePaymentRequestFailed (pd : WebhookPayload) (fs : FirestoreState)
    (now : Nat) : Except String Unit × FirestoreState :=
  let step1 : Except String Unit × FirestoreState :=
    if pd.reference_id.truthyStr then
      match updateBookingTransactionStatus fs pd.reference_id.toKey pd.status
          pd now with
      | (.error e, fs1) => (.error e, fs1)
      | (.ok _, fs1) => (.ok (), fs1)
    else (.ok (), fs)
  match step1 with
  | (.error e, fs1) => (.error e, fs1)
  | (.ok _, fs1) =>
      match createPaymentLog fs1
          { data := pd, event := "payment_request.failed",
            bookingId := pd.reference_id } now with
      | (.error e, fs2) => (.error e, fs2)
      | (.ok _, fs2) => (.ok (), fs2)

/-- The `switch (event)` dispatch of `processWebhook`: exactly one handler
family per recognized tag, a logged no-op for anything else. -/
def dispatchEvent (event : String) (pd : WebhookPayload) (fs : FirestoreState)
    (now : Nat) : Except String Unit × FirestoreState :=
  if event = "payment.capture" ∨ event = "payment.succeeded" then
    handlePaymentCapture pd fs now
  else if event = "capture.succeeded" then
    handleCaptureSucceeded pd fs now
  else if event = "payment.authorization" then
    handlePaymentAuthorization pd fs now
  else if event = "payment.failure" ∨ event = "payment.failed" then
    handlePaymentFailure pd fs now
  else if event = "payment_request.expiry" then
    handlePaymentRequestExpiry pd fs now
  else if event = "payment_request.succeeded" then
    handlePaymentRequestSucceeded pd fs now
  else if event = "payment_request.failed" then
    handlePaymentRequestFailed pd fs now
  else
    (.ok (), fs)

/-- `processWebhook` from `features/webhooks/service.js`: derive the Event
Identifier, short-circuit duplicates, otherwise mark processed, store the
webhook record, and dispatch.  The duplicate check and the mark are adjacent
synchronous steps (no suspension between them).  State changes made before a
handler throws — the processed mark and the stored record — persist, which is
why the result and the state are returned as a pair rather than inside
`Except`. -/
def processWebhook (hdrWebhookId : Option String) (b : WebhookBody)
    (st : ServiceState) (now : Nat) :
    Except String ProcessResult × ServiceState :=
  let wid := webhookIdOf hdrWebhookId b
  if st.processedWebhooks.contains wid then
    (.ok { processed := false, duplicate := true, webhookId := wid }, st)
  else
    let record : WebhookRecord :=
      { id := wid, event := b.event, business_id := b.business_id,
        created := b.created, data := b.data, receivedAt := now,
        processedAt := now }
    let st1 : ServiceState :=
      { st with
        processedWebhooks := wid :: st.processedWebhooks
        webhookStore := assocSet st.webhookStore wid record
        dispatchCount := st.dispatchCount + 1 }
    match dispatchEvent b.event b.data st1.fs now with
    | (.error e, fs') => (.error e, { st1 with fs := fs' })
    | (.ok _, fs') =>
        (.ok { processed := true, webhookId := wid }, { st1 with fs := fs' })

/-! ## Webhook routes (`features/webhooks` router) -/

/-- A JSON response body, as far as the pipeline distinguishes them. -/
inductive RespBody where
  /-- `{ error: { code, message } }` (also the error-handler envelope). -/
  | err (code msg : String)
  /-- `{ success, message: 'Webhook already processed', webhookId }`. -/
  | dupRes (webhookId : String)
  /-- `{ success, message, webhookId, event, status, referenceId }`. -/
  | okRes (webhookId event : String) (status referenceId : JsVal String)
  /-- `{ success, data: webhook }` for GET by id. -/
  | oneRes (w : WebhookRecord)
  /-- `{ success, data: { webhooks, total } }` for the list endpoint. -/
  | listRes (ws : List WebhookRecord) (total : Nat)
  /-- An opaque downstream response (for the idempotency middleware). -/
  | generic (tag : String)
deriving DecidableEq, Repr

/-- An HTTP response: status code and body. -/
abbrev HttpResponse := Nat × RespBody

/-- State visible to the webhook router: the service module's state plus the
router module's own `webhookStore` Map.  The router declares its own map
(`features/webhooks` routes file, line 9) which no code path ever writes;
the service writes to a distinct map inside `service.js`. -/
structure AppState where
  svc : ServiceState
  routerStore : List (String × WebhookRecord) := []
deriving DecidableEq, Repr

/-- `verifyWebhook` middleware: `some response` is an early rejection, `none`
lets the request through to validation and processing.  The configured token
is falsy when the env var is unset or empty; the request token must be truthy
and strictly equal to it. -/
def verifyWebhook (cfgToken : Option String) (callbackToken : Option String) :
    Option HttpResponse :=
  if ¬optTruthy cfgToken then
    some (500, .err "CONFIGURATION_ERROR" "Webhook verification not configured")
  else if ¬optTruthy callbackToken ∨ callbackToken ≠ cfgToken then
    some (401, .err "INVALID_WEBHOOK_TOKEN" "Invalid webhook callback token")
  else
    none

/-- `router.post('/')`: authenticator, then schema validation, then
`service.processWebhook`; a thrown handler error reaches the error-handler
middleware, which answers `500 INTERNAL_SERVER_ERROR`; a duplicate still
answers `200`. -/
def webhookRoutePost (cfgToken callbackToken hdrWebhookId : Option String)
    (b : WebhookBody) (st : AppState) (now : Nat) :
    HttpResponse × AppState :=
  match verifyWebhook cfgToken callbackToken with
  | some resp => (resp, st)
  | none =>
      if ¬validateWebhook b then
        ((400, .err "VALIDATION_ERROR" "Invalid request data"), st)
      else
        match processWebhook hdrWebhookId b st.svc now with
        | (.error e, svc') =>
            ((500, .err "INTERNAL_SERVER_ERROR" e), { st with svc := svc' })
        | (.ok pr, svc') =>
            if pr.duplicate then
              ((200, .dupRes pr.webhookId), { st with svc := svc' })
            else
              ((200, .okRes pr.webhookId b.event b.data.status
                  b.data.reference_id), { st with svc := svc' })

/-- `router.get('/:webhookId')`: look the id up in the router module's own
map. -/
def webhookRouteGetById (wid : String) (st : AppState) : HttpResponse :=
  match assocGet st.routerStore wid with
  | none => (404, .err "WEBHOOK_NOT_FOUND" "Webhook not found")
  | some w => (200, .oneRes w)

/-- Insertion sort of webhook records, newest `receivedAt` first (the
comparator `new Date(b.receivedAt) - new Date(a.receivedAt)`). -/
def sortNewestFirst (ws : List WebhookRecord) : List WebhookRecord :=
  let rec insert (w : WebhookRecord) : List WebhookRecord → List WebhookRecord
    | [] => [w]
    | x :: xs =>
        if x.receivedAt ≤ w.receivedAt then w :: x :: xs
        else x :: insert w xs
  ws.foldr insert []

/-- `router.get('/')`: list the router module's own map, newest first. -/
def webhookRouteList (st : AppState) : HttpResponse :=
  let ws := sortNewestFirst (st.routerStore.map (·.2))
  (200, .listRes ws ws.length)

/-! ## Idempotency middleware (`shared/middleware/idempotency.js`) -/

/-- One idempotency ledger entry: the captured response body, its status
code, and the creation timestamp (ms). -/
structure IdemEntry where
  response : RespBody
  statusCode : Nat
  timestamp : Nat
deriving DecidableEq, Repr

/-- The in-memory idempotency ledger. -/
abbrev IdemStore := List (String × IdemEntry)

/-- 24 hours in milliseconds. -/
def idemExpiryMs : Nat := 24 * 60 * 60 * 1000

/-- Case-insensitive hex digit (the `/i`-flagged character class
`[0-9a-f]`). -/
def isHexDigitCI (c : Char) : Bool :=
  c.isDigit || ('a' ≤ c && c ≤ 'f') || ('A' ≤ c && c ≤ 'F')

/-- The middleware's UUID regex
`/^[0-9a-f]8-[0-9a-f]4-[1-5][0-9a-f]3-[89ab][0-9a-f]3-[0-9a-f]12$/i`
(quantifiers written inline), checked positionally. -/
def isUuidShape (s : String) : Bool :=
  let cs := s.data
  cs.length = 36 &&
  (List.range 36).all (fun i =>
    let c := cs.getD i ' '
    if i = 8 ∨ i = 13 ∨ i = 18 ∨ i = 23 then c = '-'
    else if i = 14 then '1' ≤ c && c ≤ '5'
    else if i = 19 then
      c = '8' || c = '9' || c = 'a' || c = 'b' || c = 'A' || c = 'B'
    else isHexDigitCI c)

/-- Substring containment, for `req.path.includes(...)`. -/
def strContains (s pat : String) : Bool :=
  decide (pat.data <:+: s.data)

/-- The compound ledger key `${req.method}:${req.path}:${idempotencyKey}`,
built from the raw header string. -/
def idemCompoundKey (method path idemKey : String) : String :=
  method ++ ":" ++ path ++ ":" ++ idemKey

/-- Does the middleware apply to this request?  (`POST` and a path naming
the payment-request or invoice creation family, as the middleware observes
the path.) -/
def idemApplies (method path : String) : Bool :=
  method = "POST" &&
  (strContains path "/payment-requests" || strContains path "/invoices")

/-- Execute the downstream handler and capture its response in the ledger
under `ck` (the `res.json` override), then the size-triggered sweep of
entries older than the expiry window. -/
def idemExecuteAndStore {σ : Type} (ck : String) (now : Nat)
    (store : IdemStore) (handler : σ → HttpResponse × σ) (s : σ) :
    HttpResponse × IdemStore × σ :=
  let ((sc, body), s') := handler s
  let store1 := assocSet store ck
    { response := body, statusCode := sc, timestamp := now }
  let store2 :=
    if store1.length > 1000 then
      store1.filter (fun p => ¬(p.2.timestamp < now - idemExpiryMs))
    else store1
  ((sc, body), store2, s')

/-- `idempotencyMiddleware`: pass-through off the covered paths; reject a
missing or non-UUID key; replay an unexpired stored response verbatim
without running the handler; delete an expired entry and run the handler
afresh, capturing its response.  `σ` is the downstream handler's state, so
"the handler ran" is visible as a state transition. -/
def idempotencyMiddleware {σ : Type} (method path : String)
    (idemKey : Option String) (now : Nat) (store : IdemStore)
    (handler : σ → HttpResponse × σ) (s : σ) :
    HttpResponse × IdemStore × σ :=
  if ¬idemApplies method path then
    let ((sc, body), s') := handler s
    ((sc, body), store, s')
  else if ¬optTruthy idemKey then
    ((400, .err "MISSING_IDEMPOTENCY_KEY"
        "Missing required header: idempotency-key"), store, s)
  else
    let k := idemKey.getD ""
    if ¬isUuidShape k then
      ((400, .err "INVALID_IDEMPOTENCY_KEY"
          "Idempotency key must be a valid UUID"), store, s)
    else
      let ck := idemCompoundKey method path k
      match assocGet store ck with
      | some e =>
          if now - e.timestamp > idemExpiryMs then
            idemExecuteAndStore ck now (assocDelete store ck) handler s
          else
            ((e.statusCode, e.response), store, s)
      | none => idemExecuteAndStore ck now store handler s

/-! ## Concrete sample inputs used by counterexamples and witnesses -/

/-- The §8 concrete-scenario booking: `payLater = false`, empty `url`. -/
def sampleBooking : Booking := { payLater := .val false, url := .val "" }

/-- A store holding `sampleBooking` under id `order-1`, fully available. -/
def sampleFs : FirestoreState :=
  { available := true, bookings := [("order-1", sampleBooking)] }

/-- Fresh application state over `sampleFs`. -/
def sampleApp : AppState := { svc := { fs := sampleFs } }

/-- The §8 concrete-scenario webhook body: `payment.capture`, `SUCCEEDED`,
`reference_id = "order-1"`. -/
def sampleBody : WebhookBody :=
  { event := "payment.capture", business_id := "biz",
    created := "2025-01-01T00:00:00Z",
    data := { payment_id := .val "pay-1", reference_id := .val "order-1",
              status := .val "SUCCEEDED", amount := .val 10000,
              currency := .val "IDR" } }

/-- A booking exercising the `'Processing'` branch premise: pay-later absent
and a non-empty fulfillment URL. -/
def pendingUrlBooking : Booking :=
  { payLater := .undefined, url := .val "https://cdn.example.com/content" }

/-- A store holding `pendingUrlBooking` under id `bk-1`. -/
def pendingUrlFs : FirestoreState :=
  { available := true, bookings := [("bk-1", pendingUrlBooking)] }

/-- A `PENDING` payment payload referencing `bk-1`. -/
def pendingPayload : WebhookPayload :=
  { reference_id := .val "bk-1", status := .val "PENDING",
    payment_id := .val "pay-7" }

/-- A `payment_request.expiry` body whose `data.reference_id` is omitted. -/
def expiryNoRefBody : WebhookBody :=
  { event := "payment_request.expiry", business_id := "biz",
    created := "2025-02-02T00:00:00Z",
    data := { status := .val "EXPIRED", payment_request_id := .val "pr-9" } }

/-- An unavailable Firestore whose writes would also fail if attempted. -/
def downFs : FirestoreState := { available := false, auditFails := true }

/-- A sample audit-log input. -/
def sampleLogInput : LogInput :=
  { data := sampleBody.data, event := "payment.capture",
    bookingId := .val "order-1" }

/-- A lower-case canonical UUID. -/
def uuidLower : String := "123e4567-e89b-12d3-a456-426614174000"

/-- The same UUID with upper-case hex letters. -/
def uuidUpper : String := "123E4567-E89B-12D3-A456-426614174000"

/-- Downstream handler double: answers "first" and bumps a call counter. -/
def idemHandlerA : Nat → HttpResponse × Nat :=
  fun n => ((201, .generic "first"), n + 1)

/-- Downstream handler double: answers "second" and bumps a call counter. -/
def idemHandlerB : Nat → HttpResponse × Nat :=
  fun n => ((201, .generic "second"), n + 1)

/-! ## Helper lemmas about the association-list store -/

theorem assocGet_assocSet_self {α : Type} (l : List (String × α)) (k : String)
    (v : α) : assocGet (assocSet l k v) k = some v := by
  induction l with
  | nil => simp [assocSet, assocGet]
  | cons p rest ih =>
      obtain ⟨k', v'⟩ := p
      by_cases h : k' = k
      · simp [assocSet, h, assocGet]
      · simp [assocSet, h, assocGet, ih]

theorem assocGet_filter_of_nodup {α : Type} (l : List (String × α))
    (p : String × α → Bool) (k : String) (v : α)
    (hnd : (l.map Prod.fst).Nodup)
    (hget : assocGet l k = some v) (hp : p (k, v) = true) :
    assocGet (l.filter p) k = some v := by
  induction l with
  | nil => simp [assocGet] at hget
  | cons q rest ih =>
      obtain ⟨k', v'⟩ := q
      simp only [List.map_cons, List.nodup_cons] at hnd
      by_cases h : k' = k
      · subst h
        have hv : v' = v := by simpa [assocGet] using hget
        subst hv
        rw [List.filter_cons, if_pos hp]
        simp [assocGet]
      · have : assocGet rest k = some v := by
          simpa [assocGet, h] using hget
        rw [List.filter_cons]
        by_cases hq : p (k', v') = true
        · rw [if_pos hq]
          simp only [assocGet, if_neg h]
          exact ih hnd.2 this
        · rw [if_neg hq]
          exact ih hnd.2 this

theorem contains_eq_true_of_mem {a : String} {l : List String}
    (h : a ∈ l) : l.contains a = true :=
  List.elem_eq_true_of_mem h

theorem mem_of_contains_eq_true {a : String} {l : List String}
    (h : l.contains a = true) : a ∈ l :=
  List.mem_of_elem_eq_true h

/-! ## Characterization lemmas for the booking update -/

theorem updateBooking_not_available (fs : FirestoreState) (bid : String)
    (status : JsVal String) (pd : WebhookPayload) (now : Nat)
    (hav : fs.available = false) :
    updateBookingTransactionStatus fs bid status pd now =
      (.ok { success := false, bookingId := bid, statusOut := status,
             reason := some "Firestore not available" },
       { fs with updateCalls := fs.updateCalls + 1 }) := by
  simp [updateBookingTransactionStatus, hav]

theorem updateBooking_not_found (fs : FirestoreState) (bid : String)
    (status : JsVal String) (pd : WebhookPayload) (now : Nat)
    (hav : fs.available = true) (hget : assocGet fs.bookings bid = none) :
    updateBookingTransactionStatus fs bid status pd now =
      (.ok { success := false, bookingId := bid, statusOut := status,
             reason := some "Booking not found" },
       { fs with updateCalls := fs.updateCalls + 1 }) := by
  simp [updateBookingTransactionStatus, hav, hget]

theorem updateBooking_store_failure (fs : FirestoreState) (bid : String)
    (status : JsVal String) (pd : WebhookPayload) (now : Nat)
    (bk : Booking) (hav : fs.available = true)
    (hget : assocGet fs.bookings bid = some bk)
    (hupd : fs.updateFails = true) :
    updateBookingTransactionStatus fs bid status pd now =
      (.error "Failed to update booking",
       { fs with updateCalls := fs.updateCalls + 1 }) := by
  simp [updateBookingTransactionStatus, hav, hget, hupd]

theorem updateBooking_success_eq (fs : FirestoreState) (bid : String)
    (status : JsVal String) (pd : WebhookPayload) (now : Nat)
    (bk : Booking) (hav : fs.available = true)
    (hget : assocGet fs.bookings bid = some bk)
    (hupd : fs.updateFails = false) :
    updateBookingTransactionStatus fs bid status pd now =
      (.ok { success := true, bookingId := bid,
             statusOut := .val (mapXenditStatus status.toKey) },
       { fs with
         updateCalls := fs.updateCalls + 1
         bookings := assocSet fs.bookings bid
           (applyBookingUpdate bk pd (mapXenditStatus status.toKey)
             (derivedBookingStatus bk status (mapXenditStatus status.toKey))
             now) }) := by
  simp [updateBookingTransactionStatus, hav, hget, hupd]

theorem derivedBookingStatus_not_successful (b : Booking)
    (status : JsVal String) (mapped : String)
    (hns : status ≠ .val "SUCCEEDED") (hm : mapped ≠ "completed") :
    derivedBookingStatus b status mapped = none := by
  simp [derivedBookingStatus, hns, hm]

theorem derivedBookingStatus_content_pending (b : Booking) (mapped : String)
    (hpl : isPayLaterFalseOrNull b = true) (hurl : bookingUrlVar b = "") :
    derivedBookingStatus b (.val "SUCCEEDED") mapped =
      some "Content Pending" := by
  simp [derivedBookingStatus, hpl, hurl]

theorem applyBookingUpdate_status_none (b : Booking) (pd : WebhookPayload)
    (mapped : String) (now : Nat) :
    (applyBookingUpdate b pd mapped none now).status = b.status := rfl

theorem applyBookingUpdate_status_some (b : Booking) (pd : WebhookPayload)
    (mapped s : String) (now : Nat) :
    (applyBookingUpdate b pd mapped (some s) now).status = .val s := rfl

theorem createPaymentLog_ok_eq (fs : FirestoreState) (li : LogInput)
    (now : Nat) (hav : fs.available = true) (haud : fs.auditFails = false) :
    createPaymentLog fs li now =
      (.ok (some ("log-" ++ toString fs.paymentLogs.length)),
       { fs with
         auditCalls := fs.auditCalls + 1
         paymentLogs := fs.paymentLogs ++
           [{ data := li.data, event := li.event, bookingId := li.bookingId,
              captureId := li.captureId, createdAt := now,
              source := "xendit_webhook" }] }) := by
  simp [createPaymentLog, hav, haud]

theorem mem_keys_assocSet {α : Type} (l : List (String × α)) (k : String)
    (v : α) (x : String) :
    x ∈ (assocSet l k v).map Prod.fst → x = k ∨ x ∈ l.map Prod.fst := by
  induction l with
  | nil =>
      intro hx
      simp only [assocSet, List.map_cons, List.map_nil,
        List.mem_singleton] at hx
      exact Or.inl hx
  | cons p rest ih =>
      obtain ⟨k', v'⟩ := p
      intro hx
      rw [assocSet] at hx
      split at hx
      case isTrue heq =>
        rw [List.map_cons, List.mem_cons] at hx
        rcases hx with h1 | h1
        · exact Or.inl h1
        · exact Or.inr (by rw [List.map_cons]; exact List.mem_cons_of_mem _ h1)
      case isFalse hne =>
        rw [List.map_cons, List.mem_cons] at hx
        rcases hx with h1 | h1
        · exact Or.inr (by rw [List.map_cons, h1]; exact List.mem_cons_self _ _)
        · rcases ih h1 with h2 | h2
          · exact Or.inl h2
          · exact Or.inr
              (by rw [List.map_cons]; exact List.mem_cons_of_mem _ h2)

theorem nodup_keys_assocSet {α : Type} (l : List (String × α)) (k : String)
    (v : α) (h : (l.map Prod.fst).Nodup) :
    ((assocSet l k v).map Prod.fst).Nodup := by
  induction l with
  | nil => simp [assocSet]
  | cons p rest ih =>
      obtain ⟨k', v'⟩ := p
      rw [List.map_cons, List.nodup_cons] at h
      rw [assocSet]
      split
      case isTrue heq =>
        subst heq
        rw [List.map_cons, List.nodup_cons]
        exact ⟨h.1, h.2⟩
      case isFalse hne =>
        rw [List.map_cons, List.nodup_cons]
        refine ⟨?_, ih h.2⟩
        intro hx
        rcases mem_keys_assocSet rest k v k' hx with h1 | h1
        · exact hne h1
        · exact h.1 h1

theorem nodup_keys_assocDelete {α : Type} (l : List (String × α))
    (k : String) (h : (l.map Prod.fst).Nodup) :
    ((assocDelete l k).map Prod.fst).Nodup :=
  h.sublist (List.Sublist.map Prod.fst (List.filter_sublist l))

/-! ## C9 — the status mapper -/

/-- C9: `mapXenditStatus` is a total deterministic function: the six
documented provider statuses map to their local statuses, and every other
string — lower-case or unrecognized — maps to `unknown`.  As a plain Lean
function it has no side effects and no failure mode. -/
theorem mapXenditStatus_total_table :
    mapXenditStatus "SUCCEEDED" = "completed" ∧
    mapXenditStatus "AUTHORIZED" = "authorized" ∧
    mapXenditStatus "PENDING" = "pending" ∧
    mapXenditStatus "FAILED" = "failed" ∧
    mapXenditStatus "CANCELED" = "cancelled" ∧
    mapXenditStatus "EXPIRED" = "expired" ∧
    ∀ s : String,
      s ∉ (["SUCCEEDED", "AUTHORIZED", "PENDING", "FAILED", "CANCELED",
            "EXPIRED"] : List String) →
      mapXenditStatus s = "unknown" := by
  refine ⟨rfl, rfl, rfl, rfl, rfl, rfl, ?_⟩
  intro s hs
  simp only [List.mem_cons, List.not_mem_nil, or_false, not_or] at hs
  obtain ⟨h1, h2, h3, h4, h5, h6⟩ := hs
  simp [mapXenditStatus, h1, h2, h3, h4, h5, h6]

/-- Witness for C9 at the lower-case input "succeeded". -/
theorem mapXenditStatus_total_table_witness :
    ("succeeded" ∉ (["SUCCEEDED", "AUTHORIZED", "PENDING", "FAILED",
        "CANCELED", "EXPIRED"] : List String)) ∧
    mapXenditStatus "succeeded" = "unknown" :=
  ⟨by decide,
   mapXenditStatus_total_table.2.2.2.2.2.2 "succeeded" (by decide)⟩

/-! ## C8 — the webhook authenticator fails closed -/

/-- C8: with no shared secret configured the webhook POST answers
`500 CONFIGURATION_ERROR`; with a missing or mismatched `x-callback-token`
it answers `401 INVALID_WEBHOOK_TOKEN`.  In both cases the returned state is
exactly the input state — the dispatcher and handlers are never invoked (the
dispatch counter, booking store and audit log are all unchanged). -/
theorem webhook_auth_fails_closed (cfg tok hdr : Option String)
    (b : WebhookBody) (st : AppState) (now : Nat) :
    (optTruthy cfg = false →
      webhookRoutePost cfg tok hdr b st now =
        ((500, .err "CONFIGURATION_ERROR"
            "Webhook verification not configured"), st)) ∧
    (optTruthy cfg = true → optTruthy tok = false ∨ tok ≠ cfg →
      webhookRoutePost cfg tok hdr b st now =
        ((401, .err "INVALID_WEBHOOK_TOKEN"
            "Invalid webhook callback token"), st)) := by
  constructor
  · intro hcfg
    simp [webhookRoutePost, verifyWebhook, hcfg]
  · intro hcfg htok
    have hv : verifyWebhook cfg tok =
        some (401, .err "INVALID_WEBHOOK_TOKEN"
          "Invalid webhook callback token") := by
      rcases htok with h | h
      · simp [verifyWebhook, hcfg, h]
      · simp [verifyWebhook, hcfg, h]
    simp [webhookRoutePost, hv]

/-- Witness for C8: unset secret, then a wrong token against secret "sec". -/
theorem webhook_auth_fails_closed_witness :
    webhookRoutePost none (some "x") none sampleBody sampleApp 0 =
      ((500, .err "CONFIGURATION_ERROR"
          "Webhook verification not configured"), sampleApp) ∧
    webhookRoutePost (some "sec") (some "wrong") none sampleBody sampleApp 0 =
      ((401, .err "INVALID_WEBHOOK_TOKEN"
          "Invalid webhook callback token"), sampleApp) :=
  ⟨(webhook_auth_fails_closed none (some "x") none sampleBody sampleApp 0).1
      (by decide),
   (webhook_auth_fails_closed (some "sec") (some "wrong") none sampleBody
      sampleApp 0).2 (by decide) (Or.inr (by decide))⟩

/-! ## C10 — the idempotency key is validated case-insensitively but keyed
case-sensitively -/

/-- C10: both the lower-case and the upper-case spelling of one UUID pass
the `/i`-flagged validation regex, yet the raw header string enters the
compound ledger key, so the two spellings form distinct keys: after a first
request stored under the lower-case key, the same request with the
upper-case key executes its handler afresh (response "second", handler state
bumped), while a repeat of the lower-case key replays the cached "first"
response with its handler never run. -/
theorem idempotency_keys_case_sensitive :
    isUuidShape uuidLower = true ∧
    isUuidShape uuidUpper = true ∧
    idemCompoundKey "POST" "/payment-requests" uuidLower ≠
      idemCompoundKey "POST" "/payment-requests" uuidUpper ∧
    (idempotencyMiddleware "POST" "/payment-requests" (some uuidLower) 100 []
        idemHandlerA 0).1 = (201, .generic "first") ∧
    (idempotencyMiddleware "POST" "/payment-requests" (some uuidUpper) 200
        (idempotencyMiddleware "POST" "/payment-requests" (some uuidLower)
          100 [] idemHandlerA 0).2.1 idemHandlerB 0).1 =
      (201, .generic "second") ∧
    (idempotencyMiddleware "POST" "/payment-requests" (some uuidUpper) 200
        (idempotencyMiddleware "POST" "/payment-requests" (some uuidLower)
          100 [] idemHandlerA 0).2.1 idemHandlerB 0).2.2 = 1 ∧
    (idempotencyMiddleware "POST" "/payment-requests" (some uuidLower) 200
        (idempotencyMiddleware "POST" "/payment-requests" (some uuidLower)
          100 [] idemHandlerA 0).2.1 idemHandlerB 0).1 =
      (201, .generic "first") ∧
    (idempotencyMiddleware "POST" "/payment-requests" (some uuidLower) 200
        (idempotencyMiddleware "POST" "/payment-requests" (some uuidLower)
          100 [] idemHandlerA 0).2.1 idemHandlerB 0).2.2 = 0 := by
  decide

/-! ## C6 — audit-log failure handling -/

/-- Counterexample for C6: with the downstream store unavailable (even one
whose write would fail if attempted), `createPaymentLog` silently skips and
returns `null` — no failure propagates — and the capture handler succeeds. -/
theorem auditlog_unavailable_is_silent_skip :
    downFs.available = false ∧
    createPaymentLog downFs sampleLogInput 3 =
      (.ok none, { downFs with auditCalls := 1 }) ∧
    (handlePaymentCapture sampleBody.data downFs 3).1 = .ok () := by
  decide

/-- C6 as amended: a genuine audit-log write failure once the store is
available propagates (`createPaymentLog` throws, and the capture handler
rethrows it as a handler failure); when the store is unavailable the audit
write is skipped non-fatally, returning `null`, just as booking updates
skip. -/
theorem auditlog_failure_propagates_when_available :
    (∀ (fs : FirestoreState) (li : LogInput) (now : Nat),
      fs.available = true → fs.auditFails = true →
      (createPaymentLog fs li now).1 =
        .error "Failed to create payment log") ∧
    (∀ (fs : FirestoreState) (pd : WebhookPayload) (now : Nat),
      fs.available = true → fs.updateFails = false → fs.auditFails = true →
      (handlePaymentCapture pd fs now).1 =
        .error "Failed to create payment log") ∧
    (∀ (fs : FirestoreState) (li : LogInput) (now : Nat),
      fs.available = false →
      (createPaymentLog fs li now).1 = .ok none) := by
  refine ⟨?_, ?_, ?_⟩
  · intro fs li now hav haud
    simp [createPaymentLog, hav, haud]
  · intro fs pd now hav hupd haud
    simp only [handlePaymentCapture, updateBookingTransactionStatus, hav,
      hupd]
    cases hbk : assocGet fs.bookings (pd.reference_id.toKey) with
    | none => simp [createPaymentLog, hav, haud]
    | some bk => simp [createPaymentLog, hav, haud]
  · intro fs li now hav
    simp [createPaymentLog, hav]

/-- Witness for the amended C6 at a concrete available-but-failing store and
at the unavailable store. -/
theorem auditlog_failure_propagates_witness :
    (createPaymentLog { available := true, auditFails := true }
        sampleLogInput 1).1 = .error "Failed to create payment log" ∧
    (handlePaymentCapture sampleBody.data
        { available := true, auditFails := true } 1).1 =
      .error "Failed to create payment log" ∧
    (createPaymentLog downFs sampleLogInput 1).1 = .ok none :=
  ⟨auditlog_failure_propagates_when_available.1
      { available := true, auditFails := true } sampleLogInput 1 rfl rfl,
   auditlog_failure_propagates_when_available.2.1
      { available := true, auditFails := true } sampleBody.data 1 rfl rfl rfl,
   auditlog_failure_propagates_when_available.2.2 downFs sampleLogInput 1
      rfl⟩

/-! ## C3 — the `'Processing'` derived status -/

/-- Counterexample for C3: a booking with pay-later absent and a non-empty
fulfillment URL, updated with provider status `PENDING` (mapped status
`pending`): the update succeeds and writes the mapped transaction status,
but the top-level status stays absent — it is not set to `'Processing'`,
because the derived-status rules only run when the payment is successful. -/
theorem processing_branch_not_taken :
    mapXenditStatus "PENDING" = "pending" ∧
    pendingUrlBooking.payLater = .undefined ∧
    pendingUrlBooking.url = .val "https://cdn.example.com/content" ∧
    assocGet pendingUrlFs.bookings "bk-1" = some pendingUrlBooking ∧
    (updateBookingTransactionStatus pendingUrlFs "bk-1" (.val "PENDING")
        pendingPayload 7).1 =
      .ok { success := true, bookingId := "bk-1",
            statusOut := .val "pending" } ∧
    (assocGet (updateBookingTransactionStatus pendingUrlFs "bk-1"
        (.val "PENDING") pendingPayload 7).2.bookings "bk-1").map
        Booking.status = some JsVal.undefined ∧
    some JsVal.undefined ≠ some (JsVal.val "Processing") := by
  decide

/-- C3 as amended: under the claim's premises — mapped status `pending`,
pay-later false or absent, non-empty fulfillment URL — the handler leaves
the booking's top-level status unchanged; the `'Processing'` marker is never
assigned, since the derived-status rules run only for successful payments
and a `pending` mapped status is never successful. -/
theorem pending_leaves_toplevel_status_unchanged
    (fs : FirestoreState) (bid : String) (status : JsVal String)
    (pd : WebhookPayload) (now : Nat) (bk bk' : Booking)
    (hmap : mapXenditStatus status.toKey = "pending")
    (hpl : bk.payLater = .val false ∨ bk.payLater = .nul ∨
      bk.payLater = .undefined)
    (hurl : ∃ u, bk.url = .val u ∧ jsTrim u ≠ "")
    (hget : assocGet fs.bookings bid = some bk)
    (hget' : assocGet (updateBookingTransactionStatus fs bid status pd
        now).2.bookings bid = some bk') :
    bk'.status = bk.status := by
  have hnotsucc : status ≠ JsVal.val "SUCCEEDED" := by
    intro h
    rw [h] at hmap
    simp [JsVal.toKey, mapXenditStatus] at hmap
  cases hav : fs.available with
  | false =>
      rw [updateBooking_not_available fs bid status pd now hav] at hget'
      simp only at hget'
      rw [hget] at hget'
      injection hget' with h
      rw [← h]
  | true =>
      cases hupd : fs.updateFails with
      | true =>
          rw [updateBooking_store_failure fs bid status pd now bk hav hget
            hupd] at hget'
          simp only at hget'
          rw [hget] at hget'
          injection hget' with h
          rw [← h]
      | false =>
          rw [updateBooking_success_eq fs bid status pd now bk hav hget
            hupd] at hget'
          simp only at hget'
          rw [assocGet_assocSet_self] at hget'
          injection hget' with h
          rw [← h]
          rw [derivedBookingStatus_not_successful bk status
            (mapXenditStatus status.toKey) hnotsucc (by rw [hmap]; decide)]
          exact applyBookingUpdate_status_none bk pd _ now

/-- Witness for the amended C3 at the concrete `pending`-with-URL booking:
the booking stored after the update keeps the original (absent) top-level
status. -/
theorem pending_leaves_toplevel_status_witness :
    (applyBookingUpdate pendingUrlBooking pendingPayload "pending" none
        7).status = pendingUrlBooking.status :=
  pending_leaves_toplevel_status_unchanged pendingUrlFs "bk-1"
    (.val "PENDING") pendingPayload 7 pendingUrlBooking
    (applyBookingUpdate pendingUrlBooking pendingPayload "pending" none 7)
    (by decide) (Or.inr (Or.inr (by decide)))
    ⟨"https://cdn.example.com/content", by decide, by decide⟩ (by decide)
    (by decide)

/-! ## C4 — `payment_request.expiry` with a missing reference -/

/-- Counterexample for C4: an authenticated `payment_request.expiry` webhook
whose `data.reference_id` is omitted is rejected by schema validation with
`400 VALIDATION_ERROR` — the response is not 200, and the state (audit-call
count included) is untouched — because `webhookSchema` marks
`data.reference_id` as required. -/
theorem expiry_missing_reference_rejected :
    expiryNoRefBody.data.reference_id = .undefined ∧
    validateWebhook expiryNoRefBody = false ∧
    webhookRoutePost (some "tok") (some "tok") none expiryNoRefBody
        sampleApp 5 =
      ((400, .err "VALIDATION_ERROR" "Invalid request data"), sampleApp) ∧
    sampleApp.svc.fs.auditCalls = 0 ∧
    sampleApp.svc.fs.paymentLogs = [] := by
  decide

/-- C4 as amended: a `payment_request.expiry` webhook with
`data.reference_id` omitted never reaches a handler — schema validation
rejects it with `400 VALIDATION_ERROR` and the state is unchanged (so no
booking update and no audit write).  The spec's tolerance lives one level
down: `handlePaymentRequestExpiry` invoked with the reference missing makes
no booking-update call and writes exactly one audit-log record,
succeeding. -/
theorem expiry_missing_reference_amended :
    (∀ (cfg tok hdr : Option String) (b : WebhookBody) (st : AppState)
        (now : Nat),
      verifyWebhook cfg tok = none →
      b.event = "payment_request.expiry" →
      b.data.reference_id = .undefined →
      webhookRoutePost cfg tok hdr b st now =
        ((400, .err "VALIDATION_ERROR" "Invalid request data"), st)) ∧
    (∀ (fs : FirestoreState) (pd : WebhookPayload) (now : Nat),
      pd.reference_id = .undefined →
      fs.available = true → fs.auditFails = false →
      handlePaymentRequestExpiry pd fs now =
        (.ok (),
         { fs with
           auditCalls := fs.auditCalls + 1
           paymentLogs := fs.paymentLogs ++
             [{ data := pd, event := "payment_request.expiry",
                bookingId := .undefined, captureId := .undefined, createdAt := now,
                source := "xendit_webhook" }] })) := by
  constructor
  · intro cfg tok hdr b st now hver hev href
    have hval : validateWebhook b = false := by
      simp [validateWebhook, joiRequiredStr, href]
    rw [webhookRoutePost, hver]
    simp [hval]
  · intro fs pd now href hav haud
    have htr : pd.reference_id.truthyStr = false := by
      rw [href]; rfl
    rw [handlePaymentRequestExpiry]
    simp only [htr, Bool.false_eq_true, if_false]
    rw [createPaymentLog_ok_eq fs _ now hav haud]
    simp [href]

/-- Witness for the amended C4 at the concrete expiry body and a fully
available store. -/
theorem expiry_missing_reference_amended_witness :
    webhookRoutePost (some "tok") (some "tok") none expiryNoRefBody
        sampleApp 5 =
      ((400, .err "VALIDATION_ERROR" "Invalid request data"), sampleApp) ∧
    handlePaymentRequestExpiry expiryNoRefBody.data sampleFs 9 =
      (.ok (),
       { sampleFs with
         auditCalls := 1
         paymentLogs :=
           [{ data := expiryNoRefBody.data,
              event := "payment_request.expiry", bookingId := .undefined,
              captureId := .undefined, createdAt := 9,
              source := "xendit_webhook" }] }) := by
  constructor
  · exact expiry_missing_reference_amended.1 (some "tok") (some "tok") none
      expiryNoRefBody sampleApp 5 (by decide) (by decide) (by decide)
  · exact expiry_missing_reference_amended.2 sampleFs expiryNoRefBody.data 9
      (by decide) (by decide) (by decide)

/-! ## C7 — the idempotency ledger: replay within 24h, fresh after -/

/-- C7: on a covered POST path with a valid UUID key whose compound key is
already stored (the ledger's keys being unique, as a JS `Map` guarantees): a
repeat arriving within 24 hours of the stored timestamp is answered with
exactly the stored status code and body, the ledger and the downstream
handler state untouched (the handler is not re-executed); a repeat arriving
more than 24 hours after the stored timestamp deletes the entry and executes
the handler afresh — the response and downstream state are the handler's,
and the ledger ends up holding the fresh response under the same compound
key. -/
theorem idempotency_replay_within_24h_fresh_after {σ : Type}
    (method path k : String) (now : Nat) (store : IdemStore)
    (handler : σ → HttpResponse × σ) (s : σ) (e : IdemEntry)
    (happ : idemApplies method path = true)
    (hkey : isUuidShape k = true)
    (hnd : (store.map Prod.fst).Nodup)
    (hget : assocGet store (idemCompoundKey method path k) = some e) :
    (now ≤ e.timestamp + idemExpiryMs →
      idempotencyMiddleware method path (some k) now store handler s =
        ((e.statusCode, e.response), store, s)) ∧
    (e.timestamp + idemExpiryMs < now →
      (idempotencyMiddleware method path (some k) now store handler s).1 =
        (handler s).1 ∧
      (idempotencyMiddleware method path (some k) now store handler s).2.2 =
        (handler s).2 ∧
      assocGet (idempotencyMiddleware method path (some k) now store handler
          s).2.1 (idemCompoundKey method path k) =
        some { response := (handler s).1.2, statusCode := (handler s).1.1,
               timestamp := now }) := by
  have hne : k ≠ "" := by
    intro h
    subst h
    simp [isUuidShape] at hkey
  have htru : optTruthy (some k) = true := by simp [optTruthy, hne]
  have hmid : idempotencyMiddleware method path (some k) now store handler
      s =
      (if now - e.timestamp > idemExpiryMs then
        idemExecuteAndStore (idemCompoundKey method path k) now
          (assocDelete store (idemCompoundKey method path k)) handler s
      else ((e.statusCode, e.response), store, s)) := by
    rw [idempotencyMiddleware]
    simp only [happ, htru, hkey, Option.getD_some, not_true,
      Bool.not_true, if_false, Bool.false_eq_true, ite_false]
    rw [hget]
  constructor
  · intro hle
    have hnotgt : ¬(now - e.timestamp > idemExpiryMs) := by omega
    rw [hmid, if_neg hnotgt]
  · intro hlt
    have hgt : now - e.timestamp > idemExpiryMs := by omega
    rw [hmid, if_pos hgt]
    rcases hh : handler s with ⟨⟨sc, body⟩, s'⟩
    have hfresh : assocGet
        (assocSet (assocDelete store (idemCompoundKey method path k))
          (idemCompoundKey method path k)
          { response := body, statusCode := sc, timestamp := now })
        (idemCompoundKey method path k) =
        some { response := body, statusCode := sc, timestamp := now } :=
      assocGet_assocSet_self _ _ _
    refine ⟨?_, ?_, ?_⟩
    · simp [idemExecuteAndStore, hh]
    · simp [idemExecuteAndStore, hh]
    · simp only [idemExecuteAndStore, hh]
      by_cases hlen :
          (assocSet (assocDelete store (idemCompoundKey method path k))
            (idemCompoundKey method path k)
            { response := body, statusCode := sc,
              timestamp := now }).length > 1000
      · rw [if_pos hlen]
        refine assocGet_filter_of_nodup _ _ _ _ ?_ hfresh ?_
        · exact nodup_keys_assocSet _ _ _ (nodup_keys_assocDelete _ _ hnd)
        · simp only [decide_eq_true_eq]
          omega
      · rw [if_neg hlen]
        exact hfresh

/-- A ledger holding one cached response from timestamp 0 under the
lower-case UUID's compound key. -/
def idemStore0 : IdemStore :=
  [(idemCompoundKey "POST" "/payment-requests" uuidLower,
    { response := .generic "cached", statusCode := 200, timestamp := 0 })]

/-- Witness for C7: the cached entry replays at `now = 100` (within 24h) and
is re-executed and overwritten at `now = 172800000` (48h later). -/
theorem idempotency_replay_witness :
    idempotencyMiddleware "POST" "/payment-requests" (some uuidLower) 100
        idemStore0 idemHandlerB 0 =
      ((200, .generic "cached"), idemStore0, 0) ∧
    ((idempotencyMiddleware "POST" "/payment-requests" (some uuidLower)
        172800000 idemStore0 idemHandlerB 0).1 = (idemHandlerB 0).1 ∧
      (idempotencyMiddleware "POST" "/payment-requests" (some uuidLower)
        172800000 idemStore0 idemHandlerB 0).2.2 = (idemHandlerB 0).2 ∧
      assocGet (idempotencyMiddleware "POST" "/payment-requests"
          (some uuidLower) 172800000 idemStore0 idemHandlerB 0).2.1
          (idemCompoundKey "POST" "/payment-requests" uuidLower) =
        some { response := (idemHandlerB 0).1.2,
               statusCode := (idemHandlerB 0).1.1,
               timestamp := 172800000 }) :=
  ⟨(idempotency_replay_within_24h_fresh_after "POST" "/payment-requests"
      uuidLower 100 idemStore0 idemHandlerB 0
      { response := .generic "cached", statusCode := 200, timestamp := 0 }
      (by decide) (by decide) (by decide) (by decide)).1 (by decide),
   (idempotency_replay_within_24h_fresh_after "POST" "/payment-requests"
      uuidLower 172800000 idemStore0 idemHandlerB 0
      { response := .generic "cached", statusCode := 200, timestamp := 0 }
      (by decide) (by decide) (by decide) (by decide)).2 (by decide)⟩

/-! ## Service-level lemmas about `processWebhook` -/

theorem processWebhook_duplicate (hdr : Option String) (b : WebhookBody)
    (st : ServiceState) (now : Nat)
    (hc : st.processedWebhooks.contains (webhookIdOf hdr b) = true) :
    processWebhook hdr b st now =
      (.ok { processed := false, duplicate := true,
             webhookId := webhookIdOf hdr b }, st) := by
  simp only [processWebhook]
  rw [hc]
  rfl

theorem processWebhook_fresh_marks (hdr : Option String) (b : WebhookBody)
    (st : ServiceState) (now : Nat)
    (hc : st.processedWebhooks.contains (webhookIdOf hdr b) = false) :
    (processWebhook hdr b st now).2.processedWebhooks =
      webhookIdOf hdr b :: st.processedWebhooks := by
  rw [processWebhook]
  simp only [hc, Bool.false_eq_true, if_false]
  rcases hd : dispatchEvent b.event b.data st.fs now with ⟨r, fs'⟩
  cases r <;> simp [hd]

/-! ## C1 — duplicate deliveries are never reprocessed -/

/-- C1: a delivery that passes authentication and schema validation (i.e.
reaches processing) always leaves its Event Identifier — explicit
`webhook-id` header, or `eventType-resolvedId-created` — in the processed
set, even when its handler threw after the mark (the mark precedes
dispatch).  Any later delivery with the same identifier that reaches
processing is answered `200` with the duplicate envelope and leaves the
whole state exactly unchanged: no handler runs (the dispatch counter is part
of the state), so no booking update and no audit write occur. -/
theorem duplicate_delivery_never_reprocessed
    (cfg tok hdr : Option String) (b : WebhookBody) (st : AppState)
    (now : Nat)
    (hver : verifyWebhook cfg tok = none)
    (hval : validateWebhook b = true) :
    webhookIdOf hdr b ∈
      (webhookRoutePost cfg tok hdr b st now).2.svc.processedWebhooks ∧
    (∀ (tok2 hdr2 : Option String) (b2 : WebhookBody) (st2 : AppState)
        (now2 : Nat),
      verifyWebhook cfg tok2 = none →
      validateWebhook b2 = true →
      webhookIdOf hdr2 b2 ∈ st2.svc.processedWebhooks →
      webhookRoutePost cfg tok2 hdr2 b2 st2 now2 =
        ((200, .dupRes (webhookIdOf hdr2 b2)), st2)) := by
  constructor
  · rw [webhookRoutePost, hver]
    simp only [hval, Bool.not_true, if_false, Bool.true_eq_false,
      not_true_eq_false]
    by_cases hc : st.svc.processedWebhooks.contains (webhookIdOf hdr b) =
        true
    · rw [processWebhook_duplicate hdr b st.svc now hc]
      exact mem_of_contains_eq_true hc
    · have hc' : st.svc.processedWebhooks.contains (webhookIdOf hdr b) =
          false := by
        cases h : st.svc.processedWebhooks.contains (webhookIdOf hdr b)
        · rfl
        · exact absurd h hc
      have hmark := processWebhook_fresh_marks hdr b st.svc now hc'
      rcases hpw : processWebhook hdr b st.svc now with ⟨r, svc'⟩
      rw [hpw] at hmark
      cases r with
      | error e =>
          simp only
          rw [hmark]
          exact List.mem_cons_self _ _
      | ok pr =>
          simp only
          cases hdup : pr.duplicate <;> simp only [hdup, if_true, if_false,
            Bool.false_eq_true, Bool.true_eq_false] <;>
            (rw [hmark]; exact List.mem_cons_self _ _)
  · intro tok2 hdr2 b2 st2 now2 hver2 hval2 hmem
    rw [webhookRoutePost, hver2]
    simp only [hval2, Bool.not_true, if_false, Bool.true_eq_false,
      not_true_eq_false]
    rw [processWebhook_duplicate hdr2 b2 st2.svc now2
      (contains_eq_true_of_mem hmem)]
    rfl

/-- Witness for C1: the §8 concrete scenario delivered twice — the first
delivery marks the derived identifier, the second is answered as a
duplicate with the state unchanged. -/
theorem duplicate_delivery_witness :
    webhookIdOf none sampleBody ∈
      (webhookRoutePost (some "tok") (some "tok") none sampleBody sampleApp
        5).2.svc.processedWebhooks ∧
    webhookRoutePost (some "tok") (some "tok") none sampleBody
        ((webhookRoutePost (some "tok") (some "tok") none sampleBody
          sampleApp 5).2) 9 =
      ((200, .dupRes (webhookIdOf none sampleBody)),
       (webhookRoutePost (some "tok") (some "tok") none sampleBody sampleApp
         5).2) := by
  have h := duplicate_delivery_never_reprocessed (some "tok") (some "tok")
    none sampleBody sampleApp 5 (by decide) (by decide)
  exact ⟨h.1, h.2 (some "tok") none sampleBody _ 9 (by decide) (by decide)
    h.1⟩

/-! ## C2 — the §8 capture-to-Content-Pending scenario -/

theorem handlePaymentCapture_content_pending_eq (fs : FirestoreState)
    (rid : String) (pd : WebhookPayload) (now : Nat) (bk : Booking)
    (hav : fs.available = true) (hupd : fs.updateFails = false)
    (haud : fs.auditFails = false)
    (hget : assocGet fs.bookings rid = some bk)
    (hst : pd.status = .val "SUCCEEDED")
    (href : pd.reference_id = .val rid)
    (hpl : isPayLaterFalseOrNull bk = true)
    (hurl : bookingUrlVar bk = "") :
    handlePaymentCapture pd fs now =
      (.ok (),
       { fs with
         updateCalls := fs.updateCalls + 1
         auditCalls := fs.auditCalls + 1
         bookings := assocSet fs.bookings rid
           (applyBookingUpdate bk pd "completed" (some "Content Pending")
             now)
         paymentLogs := fs.paymentLogs ++
           [{ data := pd, event := "payment.capture",
              bookingId := .val rid, captureId := .undefined, createdAt := now,
              source := "xendit_webhook" }] }) := by
  simp only [handlePaymentCapture, href, hst, JsVal.toKey]
  rw [updateBooking_success_eq fs rid (JsVal.val "SUCCEEDED") pd now bk hav
    hget hupd]
  rw [derivedBookingStatus_content_pending bk _ hpl hurl]
  simp only []
  rw [createPaymentLog_ok_eq
    { available := fs.available, updateFails := fs.updateFails,
      auditFails := fs.auditFails,
      bookings := assocSet fs.bookings rid
        (applyBookingUpdate bk pd
          (mapXenditStatus (JsVal.val "SUCCEEDED").toKey)
          (some "Content Pending") now),
      paymentLogs := fs.paymentLogs, updateCalls := fs.updateCalls + 1,
      auditCalls := fs.auditCalls }
    { data := pd, event := "payment.capture", bookingId := JsVal.val rid,
      captureId := JsVal.undefined } now hav haud]
  rfl

/-- C2: an authenticated, schema-valid, non-duplicate `payment.capture`
webhook with `data.status = "SUCCEEDED"` whose `data.reference_id` names an
existing booking with pay-later false/absent and an empty fulfillment URL
answers `200` with the success envelope (no duplicate flag — the duplicate
envelope is a different constructor), sets the booking's
`transaction.status` to `completed`, and sets its top-level status to the
`'Content Pending'` marker. -/
theorem capture_webhook_sets_content_pending
    (cfg tok hdr : Option String) (st : AppState) (now : Nat)
    (bizId created rid : String) (pd : WebhookPayload) (bk : Booking)
    (hbiz : bizId ≠ "") (hcr : created ≠ "") (hrid : rid ≠ "")
    (hst : pd.status = .val "SUCCEEDED")
    (href : pd.reference_id = .val rid)
    (hver : verifyWebhook cfg tok = none)
    (hav : st.svc.fs.available = true)
    (hupd : st.svc.fs.updateFails = false)
    (haud : st.svc.fs.auditFails = false)
    (hbk : assocGet st.svc.fs.bookings rid = some bk)
    (hpl : isPayLaterFalseOrNull bk = true)
    (hurl : bookingUrlVar bk = "")
    (hfresh : st.svc.processedWebhooks.contains
        (webhookIdOf hdr ⟨"payment.capture", bizId, created, pd⟩) = false) :
    (webhookRoutePost cfg tok hdr ⟨"payment.capture", bizId, created, pd⟩
        st now).1 =
      (200, .okRes (webhookIdOf hdr ⟨"payment.capture", bizId, created, pd⟩)
        "payment.capture" (.val "SUCCEEDED") (.val rid)) ∧
    assocGet (webhookRoutePost cfg tok hdr
        ⟨"payment.capture", bizId, created, pd⟩ st now).2.svc.fs.bookings
        rid =
      some (applyBookingUpdate bk pd "completed" (some "Content Pending")
        now) ∧
    (applyBookingUpdate bk pd "completed" (some "Content Pending")
        now).transaction.status = .val "completed" ∧
    (applyBookingUpdate bk pd "completed" (some "Content Pending")
        now).status = .val "Content Pending" := by
  have hval : validateWebhook ⟨"payment.capture", bizId, created, pd⟩ =
      true := by
    simp [validateWebhook, joiRequiredStr, hst, href, hbiz, hcr, hrid,
      allowedEvents]
  rw [webhookRoutePost, hver]
  simp only [hval, Bool.not_true, if_false, Bool.true_eq_false,
    not_true_eq_false]
  simp only [processWebhook]
  rw [hfresh]
  simp only [Bool.false_eq_true, if_false]
  have hdisp : dispatchEvent "payment.capture" pd st.svc.fs now =
      handlePaymentCapture pd st.svc.fs now := rfl
  rw [hdisp, handlePaymentCapture_content_pending_eq st.svc.fs rid pd now bk
    hav hupd haud hbk hst href hpl hurl]
  refine ⟨by simp [hst, href], ?_, rfl, rfl⟩
  exact assocGet_assocSet_self _ _ _

/-- Witness for C2 at the §8 concrete scenario. -/
theorem capture_webhook_content_pending_witness :
    (webhookRoutePost (some "tok") (some "tok") none
        ⟨"payment.capture", "biz", "2025-01-01T00:00:00Z",
          sampleBody.data⟩ sampleApp 5).1 =
      (200, .okRes (webhookIdOf none
          ⟨"payment.capture", "biz", "2025-01-01T00:00:00Z",
            sampleBody.data⟩)
        "payment.capture" (.val "SUCCEEDED") (.val "order-1")) ∧
    assocGet (webhookRoutePost (some "tok") (some "tok") none
        ⟨"payment.capture", "biz", "2025-01-01T00:00:00Z",
          sampleBody.data⟩ sampleApp 5).2.svc.fs.bookings "order-1" =
      some (applyBookingUpdate sampleBooking sampleBody.data "completed"
        (some "Content Pending") 5) ∧
    (applyBookingUpdate sampleBooking sampleBody.data "completed"
        (some "Content Pending") 5).transaction.status =
      .val "completed" ∧
    (applyBookingUpdate sampleBooking sampleBody.data "completed"
        (some "Content Pending") 5).status = .val "Content Pending" :=
  capture_webhook_sets_content_pending (some "tok") (some "tok") none
    sampleApp 5 "biz" "2025-01-01T00:00:00Z" "order-1" sampleBody.data
    sampleBooking (by decide) (by decide) (by decide) (by decide)
    (by decide) (by decide) (by decide) (by decide) (by decide) (by decide)
    (by decide) (by decide) (by decide)

/-! ## C5 — webhook records are invisible to the admin endpoints -/

/-- C5 (code bug): a non-duplicate processed event does store a Webhook
Record — but in the service module's map, while the admin GET-by-id and
list endpoints read the router module's own never-written map.  Evaluated on
the §8 scenario: the POST succeeds with 200, the record is present in the
service store under its derived identifier, yet GET-by-id answers
`404 WEBHOOK_NOT_FOUND` and the list endpoint answers an empty list. -/
theorem webhook_record_invisible_to_admin :
    (webhookRoutePost (some "tok") (some "tok") none sampleBody sampleApp
        5).1 =
      (200, .okRes "payment.capture-pay-1-2025-01-01T00:00:00Z"
        "payment.capture" (.val "SUCCEEDED") (.val "order-1")) ∧
    assocGet (webhookRoutePost (some "tok") (some "tok") none sampleBody
        sampleApp 5).2.svc.webhookStore
        "payment.capture-pay-1-2025-01-01T00:00:00Z" =
      some { id := "payment.capture-pay-1-2025-01-01T00:00:00Z",
             event := "payment.capture", business_id := "biz",
             created := "2025-01-01T00:00:00Z", data := sampleBody.data,
             receivedAt := 5, processedAt := 5 } ∧
    webhookRouteGetById "payment.capture-pay-1-2025-01-01T00:00:00Z"
        (webhookRoutePost (some "tok") (some "tok") none sampleBody
          sampleApp 5).2 =
      (404, .err "WEBHOOK_NOT_FOUND" "Webhook not found") ∧
    webhookRouteList (webhookRoutePost (some "tok") (some "tok") none
        sampleBody sampleApp 5).2 = (200, .listRes [] 0) := by
  decide

end XenditApi
